/-
Verification of the smart_cart session-synchronization engine and
physical-consistency monitor against its natural-language specification.

Shallow embedding conventions:
* Python floats (prices, weights) are modelled as exact rationals `ℚ`;
  all arithmetic the claims touch is on decimal literals where `round(x, 2)`
  is the identity.
* Wall-clock timestamps (`int(time.time())`, `datetime.now()`) are modelled
  as natural numbers passed in explicitly by the caller.
* The Firestore client is modelled by explicit inputs: a `RemoteCatalog`
  describing what the `items` / `products` collections hold and whether the
  fetch raises, plus `Bool` flags for whether an individual write succeeds.
  A raised exception in the source corresponds to the flag being `false`.
* The `offline_sessions` directory (one JSON file per session id,
  overwritten on each save) is a key-value list; the `offline_logs`
  directory is a queue (list) of log entries.
* `FirebaseHandler` instance state is the `Handler` structure; methods
  become functions `Handler → ... → Handler × result`.
-/
import Mathlib

namespace SmartCart

/-- Product record as produced by `get_product_by_barcode` /
`_generate_fallback_product` (`src/utils/firebase_handler.py`).  The
payload fields no claim reads (`description`, `stock`, `id`) are omitted. -/
structure Product where
  name : String
  price : ℚ
  weight : ℚ
  category : String
deriving DecidableEq

/-- Document of the remote `items` collection; every field is optional and
`get_product_by_barcode` substitutes defaults via `dict.get`. -/
structure ItemDoc where
  name : Option String
  price : Option ℚ
  category : Option String
  weight : Option ℚ
deriving DecidableEq

/-- One element of a session's `items` list
(`{'itemId': ..., 'quantity': ..., 'unitPrice': ...}`). -/
structure LineItem where
  itemId : String
  quantity : ℤ
  unitPrice : ℚ
deriving DecidableEq

/-- Shopping-session document as built by `start_shopping_session`:
`sessionId`, `cartId`, `status`, `startedAt`, `endedAt`, `totalCost`,
`items`. -/
structure Session where
  sessionId : String
  cartId : String
  status : String
  startedAt : ℕ
  endedAt : Option ℕ
  totalCost : ℚ
  items : List LineItem
deriving DecidableEq

/-- Offline activity-log entry (`log_cart_activity`); the `details` mapping
carries no information any claim reads and is omitted. -/
structure LogEntry where
  timestamp : ℕ
  cartId : String
  activityType : String
deriving DecidableEq

/-- Mutable state of a `FirebaseHandler` instance together with the
on-disk stores it owns.  `db` models `self.db is not None`. -/
structure Handler where
  db : Bool
  online : Bool
  offlineMode : Bool
  cartId : String
  activeSessionId : Option String
  currentSession : Option Session
  mockDatabase : Option (List (String × Product))
  offlineSessions : List (String × Session)
  offlineLogs : List LogEntry
deriving DecidableEq

/-- Remote catalog state for one `get_product_by_barcode` call: contents of
the `items` and `products` collections, and whether the Firestore reads
raise (`fetchOk = false` models the `except` branch). -/
structure RemoteCatalog where
  itemsDoc : String → Option ItemDoc
  productsDoc : String → Option Product
  fetchOk : Bool

/-- The hard-coded offline product table `_get_basic_mock_database`
(flattened from its single `products` key). -/
def basicMockDatabase : List (String × Product) :=
  [ ("1234567890128", ⟨"Milk 1L", 199/100, 104/100, "dairy"⟩),
    ("5901234123457", ⟨"Bread", 249/100, 1/2, "bakery"⟩),
    ("4005808262816", ⟨"Toothpaste", 399/100, 1/10, "personal care"⟩),
    ("8710398503968", ⟨"Soap", 129/100, 15/100, "personal care"⟩),
    ("3574660239881", ⟨"Chocolate Bar", 99/100, 1/10, "snacks"⟩),
    ("4011", ⟨"Bananas", 293/100, 248/100, "produce"⟩),
    ("4062", ⟨"Cucumber", 129/100, 35/100, "produce"⟩),
    ("5449000000996", ⟨"Soda", 249/100, 125/100, "beverages"⟩),
    ("7613035974685", ⟨"Coffee", 899/100, 75/100, "beverages"⟩),
    ("5029054534087", ⟨"Chips", 349/100, 15/100, "snacks"⟩) ]

/-- Model of Python's `int(s)` restricted to plain decimal digit strings;
`int` raises (here: `none`) on anything else.  (Python's `int` also accepts
surrounding whitespace, a sign and underscore separators; no claim depends
on those inputs.) -/
def parseDigits (s : String) : Option ℕ :=
  if s.length > 0 && s.data.all Char.isDigit then
    some (s.data.foldl (fun a c => a * 10 + (c.toNat - 48)) 0)
  else none

/-- `_generate_fallback_product`: synthesizes a product for a barcode found
nowhere; `round(x, 2)` is the identity on the one-decimal values produced
here and is dropped. -/
def generateFallbackProduct (barcode : String) : Product :=
  match parseDigits barcode, parseDigits (barcode.drop (barcode.length - 2)) with
  | some n, some m =>
      { name := "Unknown Item (" ++ barcode ++ ")"
        price := ((n % 100 : ℕ) : ℚ) / 10
        weight := ((m % 50 : ℕ) : ℚ) / 10
        category := "unknown" }
  | _, _ =>
      { name := "Unknown Item (" ++ barcode ++ ")"
        price := 199/100
        weight := 1/2
        category := "unknown" }

/-- `_get_offline_product`: lazily (re)creates the mock database when it is
`None`, then looks the barcode up; the lazy initialization mutates the
handler. -/
def getOfflineProduct (h : Handler) (barcode : String) :
    Option Product × Handler :=
  let table := h.mockDatabase.getD basicMockDatabase
  (table.lookup barcode, { h with mockDatabase := some table })

/-- Conversion applied to an `items`-collection document in
`get_product_by_barcode` (defaults `price = 0.0`, `category = 'unknown'`,
`weight = 0.5`, `name = f"Item {barcode}"`). -/
def convertItemDoc (barcode : String) (d : ItemDoc) : Product :=
  { name := d.name.getD ("Item " ++ barcode)
    price := d.price.getD 0
    category := d.category.getD "unknown"
    weight := d.weight.getD (1/2) }

/-- `get_product_by_barcode`.  Online it consults `items`, then `products`,
then the offline table, then the fallback generator; a raised Firestore
error (`fetchOk = false`, or `db` absent) flips the handler to offline mode
and resolves offline.  Offline it resolves from the mock table or the
fallback generator. -/
def getProductByBarcode (r : RemoteCatalog) (h : Handler) (barcode : String) :
    Option Product × Handler :=
  if h.online && !h.offlineMode then
    if h.db && r.fetchOk then
      match r.itemsDoc barcode with
      | some d => (some (convertItemDoc barcode d), h)
      | none =>
        match r.productsDoc barcode with
        | some p => (some p, h)
        | none =>
          let q := getOfflineProduct h barcode
          match q.1 with
          | some p => (some p, q.2)
          | none => (some (generateFallbackProduct barcode), q.2)
    else
      let q := getOfflineProduct { h with offlineMode := true } barcode
      (some (q.1.getD (generateFallbackProduct barcode)), q.2)
  else
    let q := getOfflineProduct h barcode
    (some (q.1.getD (generateFallbackProduct barcode)), q.2)

/-- Decimal digits of `n`, least significant first, via a structural fuel
recursion (`n` itself bounds the number of divisions); models the digit
sequence of Python's `str(int)`. -/
def digitsRecAux : ℕ → ℕ → List ℕ
  | 0, _ => []
  | _ + 1, 0 => []
  | fuel + 1, n + 1 => (n + 1) % 10 :: digitsRecAux fuel ((n + 1) / 10)

/-- Decimal digits of `n`, least significant first (empty for `0`). -/
def natDigits (n : ℕ) : List ℕ := digitsRecAux n n

/-- Model of Python's `str` on a nonnegative integer. -/
def natDecimalRepr (n : ℕ) : String :=
  if n = 0 then "0"
  else String.mk ((natDigits n).reverse.map fun d => Char.ofNat (48 + d))

/-- Offline session id synthesized by `start_shopping_session` and
`save_session`: `f"offline-session-{int(time.time())}"` with the clock
reading passed in as `now`. -/
def offlineSessionId (now : ℕ) : String :=
  "offline-session-" ++ natDecimalRepr now

/-- `_save_offline_session`: writes one record per session id into the
`offline_sessions` store, overwriting any record with the same id
(timestamp normalization to ISO strings is identity here). -/
def saveOfflineSession (h : Handler) (sessionId : String) (s : Session) :
    Handler :=
  { h with offlineSessions :=
      (sessionId, s) :: h.offlineSessions.filter (fun p => p.1 != sessionId) }

/-- Fresh active session as built by `start_shopping_session` (both the
online and the offline branch; `firestore.SERVER_TIMESTAMP` is modelled by
the same clock reading `now`). -/
def newActiveSession (sessionId cartId : String) (now : ℕ) : Session :=
  { sessionId := sessionId
    cartId := cartId
    status := "active"
    startedAt := now
    endedAt := none
    totalCost := 0
    items := [] }

/-- `start_shopping_session`.  `remoteCreateOk` models whether the Firestore
document creation succeeds, `remoteId` the auto-generated document id, and
`now` the clock.  Note the source performs no check for an already active
session and never fails: it always returns a session id. -/
def startShoppingSession (remoteCreateOk : Bool) (remoteId : String)
    (now : ℕ) (h : Handler) : Handler × String :=
  if !h.db || h.offlineMode then
    let sid := offlineSessionId now
    let s := newActiveSession sid h.cartId now
    (saveOfflineSession
      { h with activeSessionId := some sid, currentSession := some s } sid s,
     sid)
  else if remoteCreateOk then
    let s := newActiveSession remoteId h.cartId now
    ({ h with activeSessionId := some remoteId, currentSession := some s },
     remoteId)
  else
    let sid := offlineSessionId now
    let s := newActiveSession sid h.cartId now
    (saveOfflineSession
      { h with activeSessionId := some sid, currentSession := some s } sid s,
     sid)

/-- Total recomputed after every mutation:
`sum(item['unitPrice'] * item['quantity'] for item in items)`. -/
def itemsTotal (items : List LineItem) : ℚ :=
  items.foldl (fun acc it => acc + it.unitPrice * it.quantity) 0

/-- In-place quantity increment of the first line item matching `itemId`
(the `for ... break` loop of `add_item_to_session`). -/
def incFirstQuantity : List LineItem → String → ℤ → List LineItem
  | [], _, _ => []
  | it :: rest, itemId, qty =>
    if it.itemId == itemId then { it with quantity := it.quantity + qty } :: rest
    else it :: incFirstQuantity rest itemId qty

/-- The in-memory mutation performed by `add_item_to_session` once the
product has resolved: merge into an existing line item or append a new one,
then recompute `totalCost`. -/
def applyAddLocal (s : Session) (itemId : String) (qty : ℤ) (price : ℚ) :
    Session :=
  let items1 :=
    if s.items.any (fun it => it.itemId == itemId) then
      incFirstQuantity s.items itemId qty
    else
      s.items ++ [⟨itemId, qty, price⟩]
  { s with items := items1, totalCost := itemsTotal items1 }

/-- Distinct return sites of `add_item_to_session`, with the `bool` value
the caller sees given by `AddResult.toBool`. -/
inductive AddResult where
  | noActiveSession
  | itemNotFound
  | okRemote
  | remoteFailed
  | okOffline
deriving DecidableEq

/-- Python boolean actually returned at each `add_item_to_session` return
site. -/
def AddResult.toBool : AddResult → Bool
  | .noActiveSession => false
  | .itemNotFound => false
  | .okRemote => true
  | .remoteFailed => false
  | .okOffline => true

/-- `add_item_to_session`.  `remoteUpdateOk` models whether the Firestore
partial update of the session document succeeds.  On remote failure the
full session is saved to the offline store and `False` is returned; in
offline mode the session is saved offline and `True` is returned. -/
def addItemToSession (r : RemoteCatalog) (remoteUpdateOk : Bool)
    (h : Handler) (itemId : String) (qty : ℤ) : Handler × AddResult :=
  match h.activeSessionId, h.currentSession with
  | some sid, some s =>
    match getProductByBarcode r h itemId with
    | (none, h1) => (h1, .itemNotFound)
    | (some product, h1) =>
      let s1 := applyAddLocal s itemId qty product.price
      let h2 := { h1 with currentSession := some s1 }
      if h2.online && !h2.offlineMode && h2.db then
        if remoteUpdateOk then (h2, .okRemote)
        else (saveOfflineSession h2 sid s1, .remoteFailed)
      else (saveOfflineSession h2 sid s1, .okOffline)
  | _, _ => (h, .noActiveSession)

/-- The filtering loop of `remove_item_from_session`: decrement every line
item matching `itemId`, drop those whose quantity falls to `≤ 0`, and
report whether any item matched (`updated`). -/
def removeScan : List LineItem → String → ℤ → List LineItem × Bool
  | [], _, _ => ([], false)
  | it :: rest, itemId, qty =>
    let restScan := removeScan rest itemId qty
    if it.itemId == itemId then
      let it1 := { it with quantity := it.quantity - qty }
      if it1.quantity ≤ 0 then (restScan.1, true)
      else (it1 :: restScan.1, true)
    else (it :: restScan.1, restScan.2)

/-- Distinct return sites of `remove_item_from_session`. -/
inductive RemoveResult where
  | noActiveSession
  | itemNotInSession
  | okRemote
  | remoteFailed
  | okOffline
deriving DecidableEq

/-- Python boolean returned at each `remove_item_from_session` return
site. -/
def RemoveResult.toBool : RemoveResult → Bool
  | .noActiveSession => false
  | .itemNotInSession => false
  | .okRemote => true
  | .remoteFailed => false
  | .okOffline => true

/-- Session rebuilt by `remove_item_from_session` after the filtering loop:
surviving items plus the recomputed `totalCost`. -/
def applyRemoveSession (s : Session) (kept : List LineItem) : Session :=
  { s with items := kept, totalCost := itemsTotal kept }

/-- `remove_item_from_session`.  When no line item matches, the function
returns `False` before touching the session, so the session (items and
`totalCost`) is left unchanged. -/
def removeItemFromSession (remoteUpdateOk : Bool) (h : Handler)
    (itemId : String) (qty : ℤ) : Handler × RemoveResult :=
  match h.activeSessionId, h.currentSession with
  | some sid, some s =>
    let scan := removeScan s.items itemId qty
    if !scan.2 then (h, .itemNotInSession)
    else
      let s1 := applyRemoveSession s scan.1
      let h1 := { h with currentSession := some s1 }
      if h1.online && !h1.offlineMode && h1.db then
        if remoteUpdateOk then (h1, .okRemote)
        else (saveOfflineSession h1 sid s1, .remoteFailed)
      else (saveOfflineSession h1 sid s1, .okOffline)
  | _, _ => (h, .noActiveSession)

/-- `complete_shopping_session`.  Marks the session completed with
`endedAt = now`, attempts the remote update when online, always saves a
local copy, clears the in-memory active session, and returns a boolean
(`False` exactly when the online remote update failed). -/
def completeShoppingSession (remoteUpdateOk : Bool) (now : ℕ)
    (h : Handler) : Handler × Bool :=
  match h.activeSessionId, h.currentSession with
  | some sid, some s =>
    let s1 := { s with status := "completed", endedAt := some now }
    let h1 := { h with currentSession := some s1 }
    let cleared := fun (h2 : Handler) =>
      { h2 with activeSessionId := none, currentSession := none }
    if h1.online && !h1.offlineMode && h1.db then
      if remoteUpdateOk then (cleared (saveOfflineSession h1 sid s1), true)
      else (cleared (saveOfflineSession h1 sid s1), false)
    else (cleared (saveOfflineSession h1 sid s1), true)
  | _, _ => (h, false)

/-- One caller-driven mutation of the active session, carrying the remote
behaviour observed by that call. -/
inductive SessionOp where
  | addOp (r : RemoteCatalog) (remoteUpdateOk : Bool) (itemId : String) (qty : ℤ)
  | removeOp (remoteUpdateOk : Bool) (itemId : String) (qty : ℤ)

/-- Handler state after one mutation. -/
def applyOp (h : Handler) : SessionOp → Handler
  | .addOp r ok itemId qty => (addItemToSession r ok h itemId qty).1
  | .removeOp ok itemId qty => (removeItemFromSession ok h itemId qty).1

/-- All handler states observed by the caller along a sequence of
mutations (initial state included, one state after each mutation). -/
def handlerTrace (h : Handler) : List SessionOp → List Handler
  | [] => [h]
  | op :: ops => h :: handlerTrace (applyOp h op) ops

/-- The `totalCost` coherence invariant of the data model: whenever an
in-memory session exists, its `totalCost` is the sum of
`unitPrice * quantity` over its line items. -/
def sessionInv (h : Handler) : Prop :=
  match h.currentSession with
  | none => True
  | some s => s.totalCost = itemsTotal s.items

instance (h : Handler) : Decidable (sessionInv h) := by
  unfold sessionInv; exact match h.currentSession with
  | none => inferInstanceAs (Decidable True)
  | some _ => inferInstanceAs (Decidable (_ = _))

/-- `sync_offline_logs`.  Guarded by `if self.offline_mode or not self.db`;
otherwise replays the queued entries in order, deleting each entry whose
remote append (`appendOk`) succeeds and keeping the ones that fail.
Returns `(synced, failed)`. -/
def syncOfflineLogs (appendOk : LogEntry → Bool) (h : Handler) :
    Handler × ℕ × ℕ :=
  if h.offlineMode || !h.db then (h, 0, 0)
  else
    let step := fun (acc : List LogEntry × ℕ × ℕ) (e : LogEntry) =>
      if appendOk e then (acc.1, acc.2.1 + 1, acc.2.2)
      else (acc.1 ++ [e], acc.2.1, acc.2.2 + 1)
    let r := h.offlineLogs.foldl step ([], 0, 0)
    ({ h with offlineLogs := r.1 }, r.2.1, r.2.2)

/-- `test_connection`, the connectivity probe.  `probeOk` models whether
listing the collections succeeds.  On success it first calls
`sync_offline_logs` when the handler was in offline mode — crucially
*before* clearing `offline_mode` — then sets `online := true` and
`offline_mode := false`.  On failure it sets `offline_mode := true`. -/
def testConnection (probeOk : Bool) (appendOk : LogEntry → Bool)
    (h : Handler) : Handler × Bool :=
  if !h.db then (h, false)
  else if probeOk then
    let h1 := if h.offlineMode then (syncOfflineLogs appendOk h).1 else h
    ({ h1 with online := true, offlineMode := false }, true)
  else ({ h with offlineMode := true }, false)

/-- Binary maximum written out so that it evaluates by kernel reduction. -/
def qMax (a b : ℚ) : ℚ := if a < b then b else a

/-- Binary minimum written out so that it evaluates by kernel reduction. -/
def qMin (a b : ℚ) : ℚ := if b < a then b else a

/-- Minimum of a (nonempty) Python list, `min(history)`. -/
def listMin : List ℚ → ℚ
  | [] => 0
  | x :: xs => xs.foldl qMin x

/-- Maximum of a (nonempty) Python list, `max(history)`. -/
def listMax : List ℚ → ℚ
  | [] => 0
  | x :: xs => xs.foldl qMax x

/-- `sum(history) / len(history)`. -/
def listMean (l : List ℚ) : ℚ :=
  (l.foldl (· + ·) 0) / (l.length : ℚ)

/-- Event printed by the monitoring loop, with the reported weight delta in
grams. -/
inductive WeightEvent where
  | added (grams : ℚ)
  | removed (grams : ℚ)
deriving DecidableEq

/-- State carried across iterations of `_monitoring_loop`:
`self.weight_history` and `self.last_stable_weight` (grams). -/
structure MonitorState where
  weightHistory : List ℚ
  lastStableWeight : ℚ
deriving DecidableEq

/-- History update of one loop iteration: append the reading, then
`pop(0)` when the history exceeds `history_size = 5`. -/
def nextHistory (history : List ℚ) (w : ℚ) : List ℚ :=
  let h0 := history ++ [w]
  if h0.length > 5 then h0.drop 1 else h0

/-- One iteration of `_monitoring_loop` on a current weight reading `w`
(grams): push into the rolling history; once the history holds its full 5
estimates and `max - min < 2.0` (stable), compare the window mean against
`last_stable_weight` with the `weight_threshold = 50.0` and emit an
added/removed event, updating the stable baseline to the new mean. -/
def monitorStep (st : MonitorState) (w : ℚ) :
    MonitorState × Option WeightEvent :=
  let hist := nextHistory st.weightHistory w
  if hist.length = 5 then
    if listMax hist - listMin hist < 2 then
      let avg := listMean hist
      if avg > st.lastStableWeight + 50 then
        (⟨hist, avg⟩, some (.added (avg - st.lastStableWeight)))
      else if avg < st.lastStableWeight - 50 then
        (⟨hist, avg⟩, some (.removed (st.lastStableWeight - avg)))
      else (⟨hist, st.lastStableWeight⟩, none)
    else (⟨hist, st.lastStableWeight⟩, none)
  else (⟨hist, st.lastStableWeight⟩, none)

/-- Feed a sequence of readings to the monitoring loop, recording the event
(or absence of one) each iteration produces. -/
def monitorRun (st : MonitorState) : List ℚ → List (Option WeightEvent)
  | [] => []
  | w :: ws =>
    let p := monitorStep st w
    p.2 :: monitorRun p.1 ws

/-- `verify_weight_change` (`src/main.py`): the one-shot discrepancy check.
Computes `actualChange = currentWeight - previousWeight` and raises a
warning popup carrying `(expectedChange, actualChange)` exactly when
`|actualChange - expectedChange| > threshold`; it touches no session
state.  The function's declared default for `threshold` is `0.1`. -/
def verifyWeightChange (previousWeight expectedChange currentWeight
    threshold : ℚ) : Option (ℚ × ℚ) :=
  let actualChange := currentWeight - previousWeight
  if |actualChange - expectedChange| > threshold then
    some (expectedChange, actualChange)
  else none

/-- The check actually scheduled 10 s after a successful add
(`src/main.py` lines 356-361): it passes `threshold = 1.0`, not the
function's default `0.1`. -/
def scheduledAddCheck (preAddWeight expectedWeightChange currentWeight : ℚ) :
    Option (ℚ × ℚ) :=
  verifyWeightChange preAddWeight expectedWeightChange currentWeight 1

/-- The check scheduled 10 s after a removal (`src/main.py` lines 539-544):
expected change negated, `threshold = 1.0`. -/
def scheduledRemoveCheck (preRemovalWeight expectedWeightChange
    currentWeight : ℚ) : Option (ℚ × ℚ) :=
  verifyWeightChange preRemovalWeight (-expectedWeightChange) currentWeight 1

/-- Concrete fixture: a handler freshly constructed without credentials
(offline mode, no Firestore client, no active session). -/
def sampleHandler : Handler :=
  { db := false
    online := false
    offlineMode := true
    cartId := "34tzyyBVfilqXhs2gjw9"
    activeSessionId := none
    currentSession := none
    mockDatabase := none
    offlineSessions := []
    offlineLogs := [] }

/-- Concrete fixture: a handler with a Firestore client, online, holding an
active empty session `"S1"`. -/
def onlineHandlerA : Handler :=
  { db := true
    online := true
    offlineMode := false
    cartId := "cart1"
    activeSessionId := some "S1"
    currentSession := some
      { sessionId := "S1"
        cartId := "cart1"
        status := "active"
        startedAt := 10
        endedAt := none
        totalCost := 0
        items := [] }
    mockDatabase := some basicMockDatabase
    offlineSessions := []
    offlineLogs := [] }

/-- Concrete fixture: a remote catalog whose `items` collection holds one
document `"B1"` (price 2, weight 1) and whose reads succeed. -/
def catalogA : RemoteCatalog :=
  { itemsDoc := fun b =>
      if b == "B1" then some ⟨some "Widget", some 2, some "misc", some 1⟩
      else none
    productsDoc := fun _ => none
    fetchOk := true }

/-- Concrete fixture: a remote catalog that is unreachable (every read
raises). -/
def catalogDown : RemoteCatalog :=
  { itemsDoc := fun _ => none
    productsDoc := fun _ => none
    fetchOk := false }

/-- Concrete fixture: like `onlineHandlerA` but the active session already
holds one line item. -/
def onlineHandlerB : Handler :=
  { db := true
    online := true
    offlineMode := false
    cartId := "cart1"
    activeSessionId := some "S2"
    currentSession := some
      { sessionId := "S2"
        cartId := "cart1"
        status := "active"
        startedAt := 20
        endedAt := none
        totalCost := 2
        items := [⟨"A", 1, 2⟩] }
    mockDatabase := some basicMockDatabase
    offlineSessions := []
    offlineLogs := [] }

/-- Concrete fixture: one queued offline activity-log entry. -/
def sampleLog : LogEntry := ⟨5, "cart1", "scan"⟩

/-- Concrete fixture: a handler that went offline while holding a Firestore
client, with one activity-log entry queued for replay. -/
def offlineQueuedHandler : Handler :=
  { db := true
    online := false
    offlineMode := true
    cartId := "cart1"
    activeSessionId := none
    currentSession := none
    mockDatabase := none
    offlineSessions := []
    offlineLogs := [sampleLog] }

/-- Value denoted by a least-significant-first digit list (decoder used to
prove the decimal representation faithful). -/
def digitsVal : List ℕ → ℕ
  | [] => 0
  | d :: ds => d + 10 * digitsVal ds

/-- Iterate `remove_item_from_session` with quantity 1 (the caller pressing
"remove" repeatedly). -/
def removeNFromSession (remoteUpdateOk : Bool) (itemId : String) :
    ℕ → Handler → Handler
  | 0, h => h
  | n + 1, h =>
    removeNFromSession remoteUpdateOk itemId n
      (removeItemFromSession remoteUpdateOk h itemId 1).1

/-- Iterate the item-list transformation of a quantity-1 removal. -/
def removeIterItems (itemId : String) : ℕ → List LineItem → List LineItem
  | 0, items => items
  | n + 1, items => removeIterItems itemId n (removeScan items itemId 1).1

/-! ### Helper lemmas -/

theorem getOfflineProduct_state (h : Handler) (b : String) :
    ((getOfflineProduct h b).2).currentSession = h.currentSession ∧
    ((getOfflineProduct h b).2).activeSessionId = h.activeSessionId ∧
    ((getOfflineProduct h b).2).online = h.online ∧
    ((getOfflineProduct h b).2).db = h.db := by
  unfold getOfflineProduct
  exact ⟨rfl, rfl, rfl, rfl⟩

theorem getProductByBarcode_currentSession (r : RemoteCatalog) (h : Handler)
    (b : String) :
    ((getProductByBarcode r h b).2).currentSession = h.currentSession := by
  unfold getProductByBarcode getOfflineProduct
  split <;> [skip; rfl]
  split
  · split
    · rfl
    · split
      · rfl
      · dsimp only
        cases List.lookup b (h.mockDatabase.getD basicMockDatabase) <;> rfl
  · rfl

theorem saveOfflineSession_currentSession (h : Handler) (sid : String)
    (s : Session) :
    (saveOfflineSession h sid s).currentSession = h.currentSession := rfl

theorem sessionInv_of_some {h : Handler} {s : Session}
    (hc : h.currentSession = some s) :
    s.totalCost = itemsTotal s.items → sessionInv h := by
  unfold sessionInv; rw [hc]; exact id

theorem sessionInv_elim {h : Handler} {s : Session} (hi : sessionInv h)
    (hc : h.currentSession = some s) :
    s.totalCost = itemsTotal s.items := by
  unfold sessionInv at hi; rw [hc] at hi; exact hi

theorem sessionInv_of_currentSession_eq {h h' : Handler}
    (he : h'.currentSession = h.currentSession) (hi : sessionInv h) :
    sessionInv h' := by
  unfold sessionInv at *; rw [he]; exact hi

theorem applyAddLocal_total (s : Session) (itemId : String) (qty : ℤ)
    (price : ℚ) :
    (applyAddLocal s itemId qty price).totalCost =
      itemsTotal (applyAddLocal s itemId qty price).items := by
  unfold applyAddLocal
  split <;> rfl

theorem inv_addItemToSession (r : RemoteCatalog) (ok : Bool) (h : Handler)
    (itemId : String) (qty : ℤ) (hi : sessionInv h) :
    sessionInv (addItemToSession r ok h itemId qty).1 := by
  unfold addItemToSession
  cases ha : h.activeSessionId with
  | none =>
    cases hc : h.currentSession <;> exact hi
  | some sid =>
    cases hc : h.currentSession with
    | none => exact hi
    | some s =>
      rcases hp : getProductByBarcode r h itemId with ⟨op, h1⟩
      have h1c : h1.currentSession = h.currentSession := by
        have := getProductByBarcode_currentSession r h itemId
        rw [hp] at this; exact this
      cases op with
      | none =>
        exact sessionInv_of_currentSession_eq h1c hi
      | some product =>
        have key : ∀ h2 : Handler,
            h2.currentSession = some (applyAddLocal s itemId qty product.price) →
            sessionInv h2 := fun h2 hc2 =>
          sessionInv_of_some hc2 (applyAddLocal_total s itemId qty product.price)
        dsimp only
        split
        · split
          · exact key _ rfl
          · exact key _ rfl
        · exact key _ rfl

theorem inv_removeItemFromSession (ok : Bool) (h : Handler)
    (itemId : String) (qty : ℤ) (hi : sessionInv h) :
    sessionInv (removeItemFromSession ok h itemId qty).1 := by
  unfold removeItemFromSession
  cases ha : h.activeSessionId with
  | none => cases hc : h.currentSession <;> exact hi
  | some sid =>
    cases hc : h.currentSession with
    | none => exact hi
    | some s =>
      dsimp only
      split
      · exact hi
      · have key : ∀ h2 : Handler,
            h2.currentSession =
              some (applyRemoveSession s (removeScan s.items itemId qty).1) →
            sessionInv h2 := fun h2 hc2 => sessionInv_of_some hc2 rfl
        split
        · split
          · exact key _ rfl
          · exact key _ rfl
        · exact key _ rfl

theorem inv_applyOp (h : Handler) (op : SessionOp) (hi : sessionInv h) :
    sessionInv (applyOp h op) := by
  cases op with
  | addOp r ok itemId qty => exact inv_addItemToSession r ok h itemId qty hi
  | removeOp ok itemId qty => exact inv_removeItemFromSession ok h itemId qty hi

theorem inv_handlerTrace (ops : List SessionOp) (h : Handler)
    (hi : sessionInv h) : ∀ h' ∈ handlerTrace h ops, sessionInv h' := by
  induction ops generalizing h with
  | nil =>
    intro h' hm
    simp only [handlerTrace, List.mem_singleton] at hm
    exact hm ▸ hi
  | cons op ops ih =>
    intro h' hm
    simp only [handlerTrace, List.mem_cons] at hm
    rcases hm with rfl | hm
    · exact hi
    · exact ih (applyOp h op) (inv_applyOp h op hi) h' hm

theorem inv_startShoppingSession (rOk : Bool) (rid : String) (now : ℕ)
    (h : Handler) : sessionInv (startShoppingSession rOk rid now h).1 := by
  unfold startShoppingSession
  split
  · exact sessionInv_of_some rfl rfl
  · split
    · exact sessionInv_of_some rfl rfl
    · exact sessionInv_of_some rfl rfl

/-! ### C1: totalCost invariant -/

/-- C1: For every sequence of AddItem/RemoveItem operations on the active
session (created by StartSession), after each mutation returns — indeed at
every state the caller observes — the session's `totalCost` equals the sum
over all current line items of `unitPrice * quantity`. -/
theorem totalCost_invariant (ops : List SessionOp) (remoteCreateOk : Bool)
    (remoteId : String) (now : ℕ) (h0 : Handler) :
    ∀ h ∈ handlerTrace (startShoppingSession remoteCreateOk remoteId now h0).1 ops,
      sessionInv h :=
  inv_handlerTrace ops _ (inv_startShoppingSession remoteCreateOk remoteId now h0)

/-- Witness for C1 at a concrete run: start a session offline and add one
item resolved through the offline fallback path. -/
theorem totalCost_invariant_witness :
    sessionInv (applyOp (startShoppingSession false "" 100 sampleHandler).1
      (SessionOp.addOp catalogDown true "4011" 1)) :=
  totalCost_invariant [SessionOp.addOp catalogDown true "4011" 1]
    false "" 100 sampleHandler _ (by simp [handlerTrace])

/-! ### C2: StartSession while a session is Active -/

/-- Counterexample to C2 as stated: with an active offline session started
at time 100, an immediately following second `start_shopping_session` call
does not fail — it returns the fresh id `offline-session-101`, installs it
as the active session, and replaces the previously active session (whose
`startedAt` was 100) by a new one with `startedAt` 101. -/
theorem start_twice_counterexample :
    (startShoppingSession false "" 101
        (startShoppingSession false "" 100 sampleHandler).1).2 =
      offlineSessionId 101 ∧
    (startShoppingSession false "" 101
        (startShoppingSession false "" 100 sampleHandler).1).1.activeSessionId =
      some (offlineSessionId 101) ∧
    Option.map Session.startedAt
      ((startShoppingSession false "" 101
          (startShoppingSession false "" 100 sampleHandler).1).1.currentSession) =
      some 101 ∧
    Option.map Session.startedAt
      ((startShoppingSession false "" 100 sampleHandler).1.currentSession) =
      some 100 := ⟨rfl, rfl, rfl, rfl⟩

/-- C2 amended: `start_shopping_session` performs no check for an already
active session and has no `SessionAlreadyActive` failure: called in any
state (in particular immediately after a previous StartSession) it
succeeds, returning a session id and replacing the in-memory active
session with a fresh empty active session. -/
theorem start_always_replaces (remoteCreateOk : Bool) (remoteId : String)
    (now : ℕ) (h : Handler) :
    (startShoppingSession remoteCreateOk remoteId now h).1.activeSessionId =
      some (startShoppingSession remoteCreateOk remoteId now h).2 ∧
    (startShoppingSession remoteCreateOk remoteId now h).1.currentSession =
      some (newActiveSession (startShoppingSession remoteCreateOk remoteId now h).2
        h.cartId now) := by
  unfold startShoppingSession
  split
  · exact ⟨rfl, rfl⟩
  · split
    · exact ⟨rfl, rfl⟩
    · exact ⟨rfl, rfl⟩

/-! ### Helper lemmas about product resolution -/

theorem getProductByBarcode_isSome (r : RemoteCatalog) (h : Handler)
    (b : String) : ((getProductByBarcode r h b).1).isSome = true := by
  unfold getProductByBarcode getOfflineProduct
  split
  · split
    · split
      · rfl
      · split
        · rfl
        · dsimp only
          cases List.lookup b (h.mockDatabase.getD basicMockDatabase) <;> rfl
    · rfl
  · rfl

theorem getProductByBarcode_flags (r : RemoteCatalog) (h : Handler)
    (b : String) :
    ((getProductByBarcode r h b).2).online = h.online ∧
    ((getProductByBarcode r h b).2).db = h.db ∧
    ((getProductByBarcode r h b).2).activeSessionId = h.activeSessionId ∧
    ((getProductByBarcode r h b).2).offlineSessions = h.offlineSessions ∧
    ((getProductByBarcode r h b).2).offlineLogs = h.offlineLogs := by
  unfold getProductByBarcode getOfflineProduct
  split
  · split
    · split
      · exact ⟨rfl, rfl, rfl, rfl, rfl⟩
      · split
        · exact ⟨rfl, rfl, rfl, rfl, rfl⟩
        · dsimp only
          cases List.lookup b (h.mockDatabase.getD basicMockDatabase) <;>
            exact ⟨rfl, rfl, rfl, rfl, rfl⟩
    · exact ⟨rfl, rfl, rfl, rfl, rfl⟩
  · exact ⟨rfl, rfl, rfl, rfl, rfl⟩

theorem getProductByBarcode_offlineMode (r : RemoteCatalog) (h : Handler)
    (b : String) (hdb : h.db = true) (hf : r.fetchOk = true) :
    ((getProductByBarcode r h b).2).offlineMode = h.offlineMode := by
  unfold getProductByBarcode getOfflineProduct
  split
  · rw [if_pos (by simp [hdb, hf] : (h.db && r.fetchOk) = true)]
    split
    · rfl
    · split
      · rfl
      · dsimp only
        cases List.lookup b (h.mockDatabase.getD basicMockDatabase) <;> rfl
  · rfl

/-! ### C3: dual-write policy and caller-visible failures of AddItem/RemoveItem -/

/-- Counterexample to C3 as stated: with an online handler holding active
session `"S1"` and a reachable catalog resolving `"B1"` (price 2), an
`add_item_to_session` call whose remote session update fails returns
`False` to the caller — it does not report success — even though the
mutation was applied in memory and the full session persisted locally. -/
theorem add_remote_failure_counterexample :
    (addItemToSession catalogA false onlineHandlerA "B1" 1).2.toBool = false ∧
    (addItemToSession catalogA false onlineHandlerA "B1" 1).2 =
      AddResult.remoteFailed ∧
    Option.map Session.items
      ((addItemToSession catalogA false onlineHandlerA "B1" 1).1.currentSession) =
      some [⟨"B1", 1, 2⟩] ∧
    Option.map Session.items
      (List.lookup "S1"
        (addItemToSession catalogA false onlineHandlerA "B1" 1).1.offlineSessions) =
      some [⟨"B1", 1, 2⟩] := by
  refine ⟨rfl, rfl, ?_, ?_⟩ <;> decide

/-- C3 amended: when a session is Active and the item resolves, AddItem
applies the mutation, and when the remote update fails the full session is
persisted locally but the call reports *failure* (`False`) to the caller;
a failure return occurs exactly in the NoActiveSession, ItemNotFound and
remote-update-failed cases.  RemoveItem follows the same policy (with
ItemNotInSession in place of ItemNotFound). -/
theorem add_remove_failure_policy :
    (∀ (r : RemoteCatalog) (remoteUpdateOk : Bool) (h : Handler)
        (itemId : String) (qty : ℤ),
      ((addItemToSession r remoteUpdateOk h itemId qty).2.toBool = false ↔
        (addItemToSession r remoteUpdateOk h itemId qty).2 = .noActiveSession ∨
        (addItemToSession r remoteUpdateOk h itemId qty).2 = .itemNotFound ∨
        (addItemToSession r remoteUpdateOk h itemId qty).2 = .remoteFailed)) ∧
    (∀ (r : RemoteCatalog) (h : Handler) (itemId : String) (qty : ℤ)
        (sid : String) (s : Session),
      h.activeSessionId = some sid → h.currentSession = some s →
      h.online = true → h.offlineMode = false → h.db = true →
      r.fetchOk = true →
      ∃ p, (getProductByBarcode r h itemId).1 = some p ∧
        (addItemToSession r false h itemId qty).2 = .remoteFailed ∧
        (addItemToSession r false h itemId qty).1.currentSession =
          some (applyAddLocal s itemId qty p.price) ∧
        List.lookup sid
          (addItemToSession r false h itemId qty).1.offlineSessions =
          some (applyAddLocal s itemId qty p.price)) ∧
    (∀ (remoteUpdateOk : Bool) (h : Handler) (itemId : String) (qty : ℤ),
      ((removeItemFromSession remoteUpdateOk h itemId qty).2.toBool = false ↔
        (removeItemFromSession remoteUpdateOk h itemId qty).2 = .noActiveSession ∨
        (removeItemFromSession remoteUpdateOk h itemId qty).2 = .itemNotInSession ∨
        (removeItemFromSession remoteUpdateOk h itemId qty).2 = .remoteFailed)) ∧
    (∀ (h : Handler) (itemId : String) (qty : ℤ) (sid : String) (s : Session),
      h.activeSessionId = some sid → h.currentSession = some s →
      h.online = true → h.offlineMode = false → h.db = true →
      (removeScan s.items itemId qty).2 = true →
      (removeItemFromSession false h itemId qty).2 = .remoteFailed ∧
      (removeItemFromSession false h itemId qty).1.currentSession =
        some (applyRemoveSession s (removeScan s.items itemId qty).1) ∧
      List.lookup sid
        (removeItemFromSession false h itemId qty).1.offlineSessions =
        some (applyRemoveSession s (removeScan s.items itemId qty).1)) := by
  refine ⟨?_, ?_, ?_, ?_⟩
  · intro r remoteUpdateOk h itemId qty
    cases (addItemToSession r remoteUpdateOk h itemId qty).2 <;>
      simp [AddResult.toBool]
  · intro r h itemId qty sid s ha hc hon hoff hdb hf
    obtain ⟨p, hp⟩ := Option.isSome_iff_exists.mp
      (getProductByBarcode_isSome r h itemId)
    refine ⟨p, hp, ?_⟩
    rcases hq : getProductByBarcode r h itemId with ⟨op, h2⟩
    have hop : op = some p := by rw [hq] at hp; exact hp
    subst hop
    have flags := getProductByBarcode_flags r h itemId
    have hmode := getProductByBarcode_offlineMode r h itemId hdb hf
    simp only [hq] at flags hmode
    obtain ⟨f1, f2, _, f4, _⟩ := flags
    unfold addItemToSession
    simp only [ha, hc, hq, f1, f2, hmode, hon, hoff, hdb, Bool.not_false,
      Bool.and_self, Bool.true_and, eq_self_iff_true, if_true,
      Bool.false_eq_true, if_false]
    simp [saveOfflineSession, List.lookup]
  · intro remoteUpdateOk h itemId qty
    cases (removeItemFromSession remoteUpdateOk h itemId qty).2 <;>
      simp [RemoveResult.toBool]
  · intro h itemId qty sid s ha hc hon hoff hdb hscan
    unfold removeItemFromSession
    simp only [ha, hc, hscan, hon, hoff, hdb, Bool.not_true, Bool.not_false,
      Bool.and_self, Bool.true_and, eq_self_iff_true, if_true,
      Bool.false_eq_true, if_false]
    simp [saveOfflineSession, List.lookup]

/-- Witness for C3's amended statement: its remote-failure branch applied
to the concrete online handler and catalog of the counterexample. -/
theorem add_remove_failure_policy_witness :
    ∃ p, (getProductByBarcode catalogA onlineHandlerA "B1").1 = some p ∧
      (addItemToSession catalogA false onlineHandlerA "B1" 1).2 =
        .remoteFailed ∧
      (addItemToSession catalogA false onlineHandlerA "B1" 1).1.currentSession =
        some (applyAddLocal
          { sessionId := "S1", cartId := "cart1", status := "active",
            startedAt := 10, endedAt := none, totalCost := 0, items := [] }
          "B1" 1 p.price) ∧
      List.lookup "S1"
        (addItemToSession catalogA false onlineHandlerA "B1" 1).1.offlineSessions =
        some (applyAddLocal
          { sessionId := "S1", cartId := "cart1", status := "active",
            startedAt := 10, endedAt := none, totalCost := 0, items := [] }
          "B1" 1 p.price) :=
  add_remove_failure_policy.2.1 catalogA onlineHandlerA "B1" 1 "S1"
    { sessionId := "S1", cartId := "cart1", status := "active",
      startedAt := 10, endedAt := none, totalCost := 0, items := [] }
    rfl rfl rfl rfl rfl rfl

/-! ### C4: automatic replay on the Offline-to-Online transition -/

/-- C4 exhibits a code bug: with a handler in offline mode holding a
Firestore client and one queued log entry whose remote append would
succeed, a successful connectivity probe returns `true` yet leaves the
replay queue untouched — `test_connection` invokes `sync_offline_logs`
*before* clearing `offline_mode`, and `sync_offline_logs` begins with
`if self.offline_mode or not self.db: return (0, 0)`, so the automatic
replay is always a no-op (third conjunct).  An explicit on-demand call
after the probe does drain the queue (last two conjuncts), confirming the
guard ordering — not the replay logic — is at fault. -/
theorem probe_leaves_queue_unsynced :
    (testConnection true (fun _ => true) offlineQueuedHandler).2 = true ∧
    (testConnection true (fun _ => true) offlineQueuedHandler).1.offlineLogs =
      [sampleLog] ∧
    (syncOfflineLogs (fun _ => true) offlineQueuedHandler).2 = (0, 0) ∧
    (syncOfflineLogs (fun _ => true)
      (testConnection true (fun _ => true) offlineQueuedHandler).1).1.offlineLogs =
      [] ∧
    (syncOfflineLogs (fun _ => true)
      (testConnection true (fun _ => true) offlineQueuedHandler).1).2 =
      (1, 0) := by
  refine ⟨rfl, rfl, rfl, rfl, rfl⟩

/-! ### C6: CompleteSession -/

/-- Counterexample to C6 as stated: completing two different active
sessions (empty `"S1"` vs one-item `"S2"`) returns the identical value
`true` to the caller both times; the caller-visible result of
`complete_shopping_session` is a success boolean, not the terminated
session snapshot the claim promises. -/
theorem complete_returns_flag_counterexample :
    (completeShoppingSession true 50 onlineHandlerA).2 = true ∧
    (completeShoppingSession true 50 onlineHandlerB).2 = true ∧
    onlineHandlerA.currentSession ≠ onlineHandlerB.currentSession := by
  refine ⟨rfl, rfl, by decide⟩

/-- C6 amended: when a session is Active, CompleteSession sets `endedAt`
to the current time and `status` to `"completed"`, writes the terminated
session through (remote update attempted when online, a local copy always
saved), clears the in-memory active session, and returns a boolean success
flag — `true` unless the online remote update failed (in which case the
session was still saved locally) — rather than the session snapshot. -/
theorem complete_session_behavior (remoteUpdateOk : Bool) (now : ℕ)
    (h : Handler) (sid : String) (s : Session)
    (ha : h.activeSessionId = some sid) (hc : h.currentSession = some s) :
    (completeShoppingSession remoteUpdateOk now h).1.activeSessionId = none ∧
    (completeShoppingSession remoteUpdateOk now h).1.currentSession = none ∧
    List.lookup sid
      (completeShoppingSession remoteUpdateOk now h).1.offlineSessions =
      some { s with status := "completed", endedAt := some now } ∧
    ((completeShoppingSession remoteUpdateOk now h).2 = true ↔
      ((h.online && !h.offlineMode && h.db) = false ∨ remoteUpdateOk = true)) := by
  unfold completeShoppingSession
  simp only [ha, hc]
  by_cases hcond : (h.online && !h.offlineMode && h.db) = true
  · rw [if_pos hcond]
    cases remoteUpdateOk <;>
      simp [saveOfflineSession, List.lookup, hcond]
  · rw [if_neg hcond]
    rw [Bool.not_eq_true] at hcond
    simp [saveOfflineSession, List.lookup, hcond]

/-- Witness for C6's amended statement at a concrete input: completing the
one-item session `"S2"` of `onlineHandlerB` with a failing remote update. -/
theorem complete_session_behavior_witness :
    (completeShoppingSession false 50 onlineHandlerB).1.activeSessionId = none ∧
    (completeShoppingSession false 50 onlineHandlerB).1.currentSession = none ∧
    List.lookup "S2"
      (completeShoppingSession false 50 onlineHandlerB).1.offlineSessions =
      some { sessionId := "S2", cartId := "cart1", status := "completed",
             startedAt := 20, endedAt := some 50, totalCost := 2,
             items := [⟨"A", 1, 2⟩] } ∧
    ((completeShoppingSession false 50 onlineHandlerB).2 = true ↔
      ((onlineHandlerB.online && !onlineHandlerB.offlineMode &&
        onlineHandlerB.db) = false ∨ false = true)) :=
  complete_session_behavior false 50 onlineHandlerB "S2"
    { sessionId := "S2", cartId := "cart1", status := "active",
      startedAt := 20, endedAt := none, totalCost := 2, items := [⟨"A", 1, 2⟩] }
    rfl rfl

/-! ### C5: offline session ids -/

theorem digitsRecAux_fuel : ∀ (n f1 f2 : ℕ), n ≤ f1 → n ≤ f2 →
    digitsRecAux f1 n = digitsRecAux f2 n := by
  intro n
  induction n using Nat.strong_induction_on with
  | _ n ih =>
    intro f1 f2 h1 h2
    match n, f1, f2 with
    | 0, 0, 0 => rfl
    | 0, 0, _ + 1 => rfl
    | 0, _ + 1, 0 => rfl
    | 0, _ + 1, _ + 1 => rfl
    | m + 1, g1 + 1, g2 + 1 =>
      show (m + 1) % 10 :: digitsRecAux g1 ((m + 1) / 10) =
        (m + 1) % 10 :: digitsRecAux g2 ((m + 1) / 10)
      have hd : (m + 1) / 10 < m + 1 := Nat.div_lt_self (Nat.succ_pos m) (by omega)
      have hg1 : (m + 1) / 10 ≤ g1 := by omega
      have hg2 : (m + 1) / 10 ≤ g2 := by omega
      rw [ih _ hd _ _ hg1 hg2]

theorem natDigits_succ (n : ℕ) :
    natDigits (n + 1) = (n + 1) % 10 :: natDigits ((n + 1) / 10) := by
  show (n + 1) % 10 :: digitsRecAux n ((n + 1) / 10) =
    (n + 1) % 10 :: digitsRecAux ((n + 1) / 10) ((n + 1) / 10)
  have hd : (n + 1) / 10 < n + 1 := Nat.div_lt_self (Nat.succ_pos n) (by omega)
  rw [digitsRecAux_fuel ((n + 1) / 10) n ((n + 1) / 10) (by omega) le_rfl]

theorem digitsVal_natDigits : ∀ n, digitsVal (natDigits n) = n := by
  intro n
  induction n using Nat.strong_induction_on with
  | _ n ih =>
    match n with
    | 0 => rfl
    | m + 1 =>
      rw [natDigits_succ]
      show (m + 1) % 10 + 10 * digitsVal (natDigits ((m + 1) / 10)) = m + 1
      have hd : (m + 1) / 10 < m + 1 := Nat.div_lt_self (Nat.succ_pos m) (by omega)
      rw [ih _ hd, Nat.add_comm, Nat.div_add_mod]

theorem natDigits_lt_ten : ∀ n, ∀ d ∈ natDigits n, d < 10 := by
  intro n
  induction n using Nat.strong_induction_on with
  | _ n ih =>
    match n with
    | 0 => intro d hd; simp [natDigits, digitsRecAux] at hd
    | m + 1 =>
      rw [natDigits_succ]
      intro d hd
      rcases List.mem_cons.mp hd with rfl | hd
      · exact Nat.mod_lt _ (by omega)
      · exact ih _ (Nat.div_lt_self (Nat.succ_pos m) (by omega)) d hd

theorem digitChar_inj : ∀ d1, d1 < 10 → ∀ d2, d2 < 10 →
    Char.ofNat (48 + d1) = Char.ofNat (48 + d2) → d1 = d2 := by decide

theorem map_digitChar_inj : ∀ (l1 l2 : List ℕ), (∀ x ∈ l1, x < 10) →
    (∀ x ∈ l2, x < 10) →
    l1.map (fun d => Char.ofNat (48 + d)) = l2.map (fun d => Char.ofNat (48 + d)) →
    l1 = l2 := by
  intro l1
  induction l1 with
  | nil => intro l2 _ _ he; cases l2 with
    | nil => rfl
    | cons b bs => exact absurd he (by simp)
  | cons a as ih =>
    intro l2 h1 h2 he
    cases l2 with
    | nil => exact absurd he (by simp)
    | cons b bs =>
      simp only [List.map_cons, List.cons.injEq] at he
      have ha : a = b := digitChar_inj a (h1 a (List.mem_cons_self a as)) b
        (h2 b (List.mem_cons_self b bs)) he.1
      have hrest : as = bs := ih bs (fun x hx => h1 x (List.mem_cons_of_mem a hx))
        (fun x hx => h2 x (List.mem_cons_of_mem b hx)) he.2
      rw [ha, hrest]

theorem natDecimalRepr_zero_iff (n : ℕ) (hn : n ≠ 0) :
    natDecimalRepr n ≠ "0" := by
  intro he
  unfold natDecimalRepr at he
  rw [if_neg hn] at he
  have hdata : (natDigits n).reverse.map (fun d => Char.ofNat (48 + d)) =
      ['0'] := congrArg String.data he
  have : (natDigits n).reverse = [0] := by
    apply map_digitChar_inj
    · intro x hx
      exact natDigits_lt_ten n x (List.mem_reverse.mp hx)
    · intro x hx
      simp at hx
      omega
    · simpa using hdata
  have hd : natDigits n = [0] := by
    have := congrArg List.reverse this
    simpa using this
  have : n = 0 := by
    have hv := digitsVal_natDigits n
    rw [hd] at hv
    simpa [digitsVal] using hv.symm
  exact hn this

theorem natDecimalRepr_injective : Function.Injective natDecimalRepr := by
  intro m n he
  by_cases hm : m = 0 <;> by_cases hn : n = 0
  · rw [hm, hn]
  · exact absurd (by rw [← he, hm, natDecimalRepr, if_pos rfl])
      (natDecimalRepr_zero_iff n hn)
  · exact absurd (by rw [he, hn, natDecimalRepr, if_pos rfl])
      (natDecimalRepr_zero_iff m hm)
  · unfold natDecimalRepr at he
    rw [if_neg hm, if_neg hn] at he
    have hdata := congrArg String.data he
    simp only [String.data] at hdata
    have hrev : (natDigits m).reverse = (natDigits n).reverse := by
      apply map_digitChar_inj
      · intro x hx; exact natDigits_lt_ten m x (List.mem_reverse.mp hx)
      · intro x hx; exact natDigits_lt_ten n x (List.mem_reverse.mp hx)
      · exact hdata
    have hdig : natDigits m = natDigits n := by
      have := congrArg List.reverse hrev
      simpa using this
    have := congrArg digitsVal hdig
    rwa [digitsVal_natDigits, digitsVal_natDigits] at this

/-- Counterexample to C5 as stated: two successive offline
`start_shopping_session` calls within the same whole second (clock reading
100 both times) return the *same* session id `"offline-session-100"` —
`int(time.time())` has one-second resolution and nothing enforces a
strictly increasing timestamp, so offline ids are not pairwise distinct. -/
theorem offline_id_collision_counterexample :
    (startShoppingSession false "" 100
        (startShoppingSession false "" 100 sampleHandler).1).2 =
      (startShoppingSession false "" 100 sampleHandler).2 ∧
    (startShoppingSession false "" 100 sampleHandler).2 =
      "offline-session-100" := by
  refine ⟨rfl, by decide⟩

/-- C5 amended: every offline session id is the deterministic prefix
`"offline-session-"` followed by the decimal whole-second clock reading;
two offline StartSession calls yield distinct ids exactly when their
whole-second timestamps differ (in particular calls within the same second
collide, so uniqueness holds only while the clock advances between calls). -/
theorem offline_id_distinct_iff (t1 t2 : ℕ) :
    offlineSessionId t1 = offlineSessionId t2 ↔ t1 = t2 := by
  constructor
  · intro he
    unfold offlineSessionId at he
    have hdata := congrArg String.data he
    simp only [String.data_append] at hdata
    have := List.append_cancel_left hdata
    exact natDecimalRepr_injective (String.ext this)
  · intro he; rw [he]

/-- Witness for C5's amended statement at concrete timestamps: ids of
seconds 100 and 101 differ. -/
theorem offline_id_distinct_iff_witness :
    offlineSessionId 100 ≠ offlineSessionId 101 :=
  fun he => absurd ((offline_id_distinct_iff 100 101).mp he) (by decide)

/-! ### C7: RemoveItem until the line item disappears -/

theorem removeScan_no_match (itemId : String) (qty : ℤ) :
    ∀ items : List LineItem, (∀ it ∈ items, (it.itemId == itemId) = false) →
    removeScan items itemId qty = (items, false) := by
  intro items
  induction items with
  | nil => intro _; rfl
  | cons a rest ih =>
    intro hno
    have hhead := hno a (List.mem_cons_self a rest)
    have hrest := ih (fun x hx => hno x (List.mem_cons_of_mem a hx))
    simp [removeScan, hhead, hrest]

theorem removeScan_updated_eq_any (itemId : String) (qty : ℤ) :
    ∀ items : List LineItem,
    (removeScan items itemId qty).2 = items.any (fun it => it.itemId == itemId) := by
  intro items
  induction items with
  | nil => rfl
  | cons a rest ih =>
    by_cases hm : (a.itemId == itemId) = true
    · by_cases hz : a.quantity - qty ≤ 0 <;> simp [removeScan, hm, hz]
    · rw [Bool.not_eq_true] at hm
      simp [removeScan, hm, ih]

theorem removeScan_not_updated_kept (itemId : String) (qty : ℤ)
    (items : List LineItem) (hu : (removeScan items itemId qty).2 = false) :
    (removeScan items itemId qty).1 = items := by
  have hany := removeScan_updated_eq_any itemId qty items
  rw [hu] at hany
  have hno : ∀ it ∈ items, (it.itemId == itemId) = false := by
    intro it hit
    have := List.any_eq_false.mp hany.symm it hit
    exact Bool.eq_false_iff.mpr this
  rw [removeScan_no_match itemId qty items hno]

theorem remove_no_match_fails (remoteUpdateOk : Bool) (h : Handler)
    (itemId : String) (qty : ℤ) (sid : String) (s : Session)
    (ha : h.activeSessionId = some sid) (hc : h.currentSession = some s)
    (hno : ∀ it ∈ s.items, (it.itemId == itemId) = false) :
    removeItemFromSession remoteUpdateOk h itemId qty =
      (h, .itemNotInSession) := by
  unfold removeItemFromSession
  simp only [ha, hc]
  rw [removeScan_no_match itemId qty s.items hno]
  simp

theorem remove_step_session (remoteUpdateOk : Bool) (h : Handler)
    (itemId : String) (sid : String) (s : Session)
    (ha : h.activeSessionId = some sid) (hc : h.currentSession = some s) :
    ∃ s', (removeItemFromSession remoteUpdateOk h itemId 1).1.activeSessionId =
        some sid ∧
      (removeItemFromSession remoteUpdateOk h itemId 1).1.currentSession =
        some s' ∧
      s'.items = (removeScan s.items itemId 1).1 := by
  unfold removeItemFromSession
  simp only [ha, hc]
  by_cases hupd : (removeScan s.items itemId 1).2 = false
  · refine ⟨s, ?_⟩
    rw [hupd]
    simpa [ha, hc] using (removeScan_not_updated_kept itemId 1 s.items hupd).symm
  · rw [Bool.not_eq_false] at hupd
    rw [hupd]
    refine ⟨applyRemoveSession s (removeScan s.items itemId 1).1, ?_⟩
    simp only [Bool.not_true, Bool.false_eq_true, if_false]
    split
    · split
      · exact ⟨rfl, rfl, rfl⟩
      · exact ⟨rfl, rfl, rfl⟩
    · exact ⟨rfl, rfl, rfl⟩

theorem removeScan_step_bound (itemId : String) (n : ℤ) :
    ∀ items : List LineItem,
    (∀ it ∈ items, (it.itemId == itemId) = true →
      1 ≤ it.quantity ∧ it.quantity ≤ n) →
    ∀ it ∈ (removeScan items itemId 1).1, (it.itemId == itemId) = true →
      1 ≤ it.quantity ∧ it.quantity ≤ n - 1 := by
  intro items
  induction items with
  | nil => intro _ it hit; simp [removeScan] at hit
  | cons a rest ih =>
    intro hb it hit hmatch
    have hrest := fun x hx hmx => hb x (List.mem_cons_of_mem a hx) hmx
    by_cases hm : (a.itemId == itemId) = true
    · have hq := hb a (List.mem_cons_self a rest) hm
      by_cases hz : a.quantity - 1 ≤ 0
      · have hmem : it ∈ (removeScan rest itemId 1).1 := by
          simpa [removeScan, hm, hz] using hit
        exact ih hrest it hmem hmatch
      · have hmem : it = { a with quantity := a.quantity - 1 } ∨
            it ∈ (removeScan rest itemId 1).1 := by
          simpa [removeScan, hm, hz, List.mem_cons] using hit
        rcases hmem with rfl | hmem
        · dsimp only
          have h1 := hq.1
          have h2 := hq.2
          exact ⟨by omega, by omega⟩
        · exact ih hrest it hmem hmatch
    · rw [Bool.not_eq_true] at hm
      have hmem : it = a ∨ it ∈ (removeScan rest itemId 1).1 := by
        simpa [removeScan, hm, List.mem_cons] using hit
      rcases hmem with rfl | hmem
      · rw [hmatch] at hm; exact absurd hm (by simp)
      · exact ih hrest it hmem hmatch

theorem removeIter_clears (itemId : String) :
    ∀ (n : ℕ) (items : List LineItem),
    (∀ it ∈ items, (it.itemId == itemId) = true →
      1 ≤ it.quantity ∧ it.quantity ≤ (n : ℤ)) →
    ∀ it ∈ removeIterItems itemId n items, (it.itemId == itemId) = false := by
  intro n
  induction n with
  | zero =>
    intro items hb it hit
    cases hx : (it.itemId == itemId) with
    | false => rfl
    | true =>
      have := hb it hit hx
      omega
  | succ n ih =>
    intro items hb it hit
    refine ih (removeScan items itemId 1).1 ?_ it hit
    intro x hx hmx
    have hb' : ∀ it ∈ items, (it.itemId == itemId) = true →
        1 ≤ it.quantity ∧ it.quantity ≤ (n : ℤ) + 1 := by
      intro y hy hmy
      have := hb y hy hmy
      push_cast at this ⊢
      omega
    have := removeScan_step_bound itemId ((n : ℤ) + 1) items hb' x hx hmx
    omega

theorem removeN_session (remoteUpdateOk : Bool) (itemId : String) :
    ∀ (n : ℕ) (h : Handler) (sid : String) (s : Session),
    h.activeSessionId = some sid → h.currentSession = some s →
    ∃ s', (removeNFromSession remoteUpdateOk itemId n h).activeSessionId =
        some sid ∧
      (removeNFromSession remoteUpdateOk itemId n h).currentSession = some s' ∧
      s'.items = removeIterItems itemId n s.items := by
  intro n
  induction n with
  | zero => intro h sid s ha hc; exact ⟨s, ha, hc, rfl⟩
  | succ n ih =>
    intro h sid s ha hc
    obtain ⟨s1, ha1, hc1, hi1⟩ :=
      remove_step_session remoteUpdateOk h itemId sid s ha hc
    obtain ⟨s', g1, g2, g3⟩ :=
      ih (removeItemFromSession remoteUpdateOk h itemId 1).1 sid s1 ha1 hc1
    refine ⟨s', g1, g2, ?_⟩
    rw [g3, hi1]
    rfl

/-- C7: with an Active session, (a) RemoveItem on any id matching no line
item fails with ItemNotInSession and leaves the handler — in particular the
session's items and `totalCost` — entirely unchanged; (b) when every line
item carrying the id has quantity between 1 and `n`, `n` quantity-1
removals eliminate the line item entirely, and a further RemoveItem on the
same id fails with ItemNotInSession. -/
theorem remove_until_zero :
    (∀ (remoteUpdateOk : Bool) (h : Handler) (itemId : String) (qty : ℤ)
        (sid : String) (s : Session),
      h.activeSessionId = some sid → h.currentSession = some s →
      (∀ it ∈ s.items, (it.itemId == itemId) = false) →
      removeItemFromSession remoteUpdateOk h itemId qty =
        (h, .itemNotInSession)) ∧
    (∀ (remoteUpdateOk : Bool) (h : Handler) (itemId : String) (n : ℕ)
        (sid : String) (s : Session),
      h.activeSessionId = some sid → h.currentSession = some s →
      (∀ it ∈ s.items, (it.itemId == itemId) = true →
        1 ≤ it.quantity ∧ it.quantity ≤ (n : ℤ)) →
      ∃ s', (removeNFromSession remoteUpdateOk itemId n h).currentSession =
          some s' ∧
        (∀ it ∈ s'.items, (it.itemId == itemId) = false) ∧
        removeItemFromSession remoteUpdateOk
            (removeNFromSession remoteUpdateOk itemId n h) itemId 1 =
          (removeNFromSession remoteUpdateOk itemId n h, .itemNotInSession)) := by
  constructor
  · exact remove_no_match_fails
  · intro remoteUpdateOk h itemId n sid s ha hc hb
    obtain ⟨s', g1, g2, g3⟩ := removeN_session remoteUpdateOk itemId n h sid s ha hc
    have hno : ∀ it ∈ s'.items, (it.itemId == itemId) = false := by
      rw [g3]
      exact removeIter_clears itemId n s.items hb
    exact ⟨s', g2, hno,
      remove_no_match_fails remoteUpdateOk _ itemId 1 sid s' g1 g2 hno⟩

/-- Witness for C7 at a concrete input: the one-item session of
`onlineHandlerB` (item `"A"`, quantity 1); a single removal eliminates the
line item and the next removal fails. -/
theorem remove_until_zero_witness :
    ∃ s', (removeNFromSession true "A" 1 onlineHandlerB).currentSession =
        some s' ∧
      (∀ it ∈ s'.items, (it.itemId == "A") = false) ∧
      removeItemFromSession true (removeNFromSession true "A" 1 onlineHandlerB)
          "A" 1 =
        (removeNFromSession true "A" 1 onlineHandlerB, .itemNotInSession) :=
  remove_until_zero.2 true onlineHandlerB "A" 1 "S2"
    { sessionId := "S2", cartId := "cart1", status := "active",
      startedAt := 20, endedAt := none, totalCost := 2, items := [⟨"A", 1, 2⟩] }
    rfl rfl (by decide)

/-! ### C8: stability-window change detection -/

/-- C8: (general part) the monitoring loop emits an event only once the
rolling history holds its full 5 estimates and the window is stable —
`max(history) - min(history)` strictly below 2 g; the event is "item added"
with reported weight `mean - baseline` exactly when the window mean exceeds
the last stable baseline by more than 50 g ("item removed" symmetrically
when more than 50 g lighter), and the stable baseline is updated to the new
mean.  (Concrete part) feeding 5 readings at 500 g then 5 at 750 g to a
monitor whose baseline started at the pre-step stable reading 500 g emits
no event during the first nine iterations (partial window, then unstable
transient) and exactly one "item added" event of 250 g at the tenth. -/
theorem monitor_stability_spec :
    (∀ (st : MonitorState) (w : ℚ) (st' : MonitorState) (ev : WeightEvent),
      monitorStep st w = (st', some ev) →
      (nextHistory st.weightHistory w).length = 5 ∧
      listMax (nextHistory st.weightHistory w) -
        listMin (nextHistory st.weightHistory w) < 2 ∧
      st'.lastStableWeight = listMean (nextHistory st.weightHistory w) ∧
      ((listMean (nextHistory st.weightHistory w) > st.lastStableWeight + 50 ∧
        ev = .added (listMean (nextHistory st.weightHistory w) -
          st.lastStableWeight)) ∨
       (listMean (nextHistory st.weightHistory w) < st.lastStableWeight - 50 ∧
        ev = .removed (st.lastStableWeight -
          listMean (nextHistory st.weightHistory w))))) ∧
    monitorRun ⟨[], 500⟩ (List.replicate 5 500 ++ List.replicate 5 750) =
      List.replicate 9 none ++ [some (WeightEvent.added 250)] := by
  constructor
  · intro st w st' ev heq
    unfold monitorStep at heq
    dsimp only at heq
    split at heq
    · split at heq
      · split at heq
        · simp only [Prod.mk.injEq, Option.some.injEq] at heq
          refine ⟨by assumption, by assumption, ?_, ?_⟩
          · rw [← heq.1]
          · exact Or.inl ⟨by assumption, heq.2.symm⟩
        · split at heq
          · simp only [Prod.mk.injEq, Option.some.injEq] at heq
            refine ⟨by assumption, by assumption, ?_, ?_⟩
            · rw [← heq.1]
            · exact Or.inr ⟨by assumption, heq.2.symm⟩
          · simp at heq
      · simp at heq
    · simp at heq
  · norm_num [monitorRun, monitorStep, nextHistory, listMax, listMin,
      listMean, qMax, qMin, List.replicate]

/-- Witness for C8's general part at a concrete step: the tenth iteration
of the scenario (history `[750, 750, 750, 750]`, baseline 500, reading
750). -/
theorem monitor_stability_spec_witness :
    (nextHistory [750, 750, 750, 750] 750).length = 5 ∧
    listMax (nextHistory [750, 750, 750, 750] 750) -
      listMin (nextHistory [750, 750, 750, 750] 750) < 2 ∧
    (MonitorState.mk [750, 750, 750, 750, 750] 750).lastStableWeight =
      listMean (nextHistory [750, 750, 750, 750] 750) ∧
    ((listMean (nextHistory [750, 750, 750, 750] 750) >
        (MonitorState.mk [750, 750, 750, 750] 500).lastStableWeight + 50 ∧
      WeightEvent.added 250 =
        .added (listMean (nextHistory [750, 750, 750, 750] 750) -
          (MonitorState.mk [750, 750, 750, 750] 500).lastStableWeight)) ∨
     (listMean (nextHistory [750, 750, 750, 750] 750) <
        (MonitorState.mk [750, 750, 750, 750] 500).lastStableWeight - 50 ∧
      WeightEvent.added 250 =
        .removed ((MonitorState.mk [750, 750, 750, 750] 500).lastStableWeight -
          listMean (nextHistory [750, 750, 750, 750] 750)))) :=
  monitor_stability_spec.1 ⟨[750, 750, 750, 750], 500⟩ 750
    ⟨[750, 750, 750, 750, 750], 750⟩ (.added 250)
    (by norm_num [monitorStep, nextHistory, listMax, listMin, listMean,
      qMax, qMin])

/-! ### C9: the one-shot weight-discrepancy check -/

/-- Counterexample to C9 as stated: at the spec's own example figures —
expected change 1.0 kg, weight before 0, current weight 0.2 kg — the check
actually scheduled after AddItem raises nothing, although
`|actualChange - expectedChange| = 0.8` exceeds 0.1 kg: the scheduled call
passes `threshold = 1.0`, and only the function's unused default is
0.1 kg (with threshold 0.1 the same inputs do raise, third conjunct). -/
theorem scheduled_check_counterexample :
    scheduledAddCheck 0 1 (1/5) = none ∧
    |((1 : ℚ)/5 - 0) - 1| > 1/10 ∧
    verifyWeightChange 0 1 (1/5) (1/10) = some (1, 1/5) := by
  have habs : |(1 : ℚ)/5 - 0 - 1| = 4/5 := by norm_num
  refine ⟨?_, ?_, ?_⟩
  · simp only [scheduledAddCheck, verifyWeightChange]
    rw [habs]
    norm_num
  · rw [habs]; norm_num
  · simp only [verifyWeightChange]
    rw [habs, if_pos (by norm_num : (4 : ℚ)/5 > 1/10)]
    norm_num

/-- C9 amended: the one-shot discrepancy check computes
`actualChange = currentWeight - weightBeforeChange` and raises a warning
carrying `(expectedChange, actualChange)` if and only if
`|actualChange - expectedChange|` exceeds the tolerance *passed to it* —
which is 1.0 kg at the call sites scheduled after AddItem/RemoveItem
(0.1 kg being only the function's declared default) — and it never touches
the session. -/
theorem verify_weight_change_spec :
    (∀ previousWeight expectedChange currentWeight threshold : ℚ,
      ((verifyWeightChange previousWeight expectedChange currentWeight
          threshold).isSome = true ↔
        |(currentWeight - previousWeight) - expectedChange| > threshold) ∧
      (∀ e a : ℚ,
        verifyWeightChange previousWeight expectedChange currentWeight
          threshold = some (e, a) →
        e = expectedChange ∧ a = currentWeight - previousWeight)) ∧
    (∀ p e c : ℚ, scheduledAddCheck p e c = verifyWeightChange p e c 1) ∧
    (∀ p e c : ℚ,
      scheduledRemoveCheck p e c = verifyWeightChange p (-e) c 1) := by
  refine ⟨?_, fun _ _ _ => rfl, fun _ _ _ => rfl⟩
  intro previousWeight expectedChange currentWeight threshold
  constructor
  · unfold verifyWeightChange
    by_cases habs :
        |(currentWeight - previousWeight) - expectedChange| > threshold <;>
      simp [habs]
  · intro e a heq
    unfold verifyWeightChange at heq
    dsimp only at heq
    split at heq
    · simp only [Option.some.injEq, Prod.mk.injEq] at heq
      exact ⟨heq.1.symm, heq.2.symm⟩
    · simp at heq

/-- Witness for C9's amended statement: the some-case extraction at the
counterexample's inputs with the default tolerance. -/
theorem verify_weight_change_spec_witness :
    (1 : ℚ) = 1 ∧ (1 : ℚ)/5 = (1 : ℚ)/5 - 0 :=
  (verify_weight_change_spec.1 0 1 (1/5) (1/10)).2 1 (1/5) (by
    simp only [verifyWeightChange]
    rw [show |(1 : ℚ)/5 - 0 - 1| = 4/5 from by norm_num,
      if_pos (by norm_num : (4 : ℚ)/5 > 1/10)]
    norm_num)

/-! ### C10: catalog resolution is total -/

/-- C10: `get_product_by_barcode` always returns a product record, never
`None` — when the barcode is found neither remotely nor in the offline
table a fallback product is synthesized, with default price 1.99 and
weight 0.5 when the barcode is not numeric — so the product-not-found
failure branch of `add_item_to_session` is unreachable: AddItem never
fails with ItemNotFound. -/
theorem product_resolution_total :
    (∀ (r : RemoteCatalog) (h : Handler) (barcode : String),
      ((getProductByBarcode r h barcode).1).isSome = true) ∧
    (∀ (r : RemoteCatalog) (remoteUpdateOk : Bool) (h : Handler)
        (itemId : String) (qty : ℤ),
      (addItemToSession r remoteUpdateOk h itemId qty).2 ≠ .itemNotFound) ∧
    (∀ barcode : String, parseDigits barcode = none →
      generateFallbackProduct barcode =
        { name := "Unknown Item (" ++ barcode ++ ")", price := 199/100,
          weight := 1/2, category := "unknown" }) := by
  refine ⟨getProductByBarcode_isSome, ?_, ?_⟩
  · intro r remoteUpdateOk h itemId qty
    unfold addItemToSession
    cases ha : h.activeSessionId with
    | none => cases hc : h.currentSession <;> simp
    | some sid =>
      cases hc : h.currentSession with
      | none => simp
      | some s =>
        rcases hq : getProductByBarcode r h itemId with ⟨op, h1⟩
        have hsome := getProductByBarcode_isSome r h itemId
        rw [hq] at hsome
        cases op with
        | none => simp at hsome
        | some p =>
          dsimp only
          split
          · split <;> simp
          · simp
  · intro barcode hp
    unfold generateFallbackProduct
    rw [hp]

/-- Witness for C10: an unknown non-numeric barcode resolves to the default
fallback product, and an offline add of an unknown barcode does not fail
with ItemNotFound. -/
theorem product_resolution_total_witness :
    (addItemToSession catalogDown true sampleHandler "zz" 1).2 ≠
      AddResult.itemNotFound ∧
    generateFallbackProduct "abc" =
      { name := "Unknown Item (" ++ "abc" ++ ")", price := 199/100,
        weight := 1/2, category := "unknown" } :=
  ⟨product_resolution_total.2.1 catalogDown true sampleHandler "zz" 1,
   product_resolution_total.2.2 "abc" (by decide)⟩

end SmartCart
